import Mathlib

/-
Verification of the NEMS dashboard analytics core (cost analyzer,
demand analyzer, sustainability analyzer).

Shallow embedding conventions:
- JavaScript numbers are modelled by `JsNum`: an exact rational together
  with the special values NaN, +Infinity and -Infinity, with arithmetic
  and comparison following IEEE-754/JS semantics at that granularity
  (floating-point rounding is abstracted to exact rationals).
- A reading's timestamp is carried as its epoch milliseconds
  (`new Date(t).getTime()`), and the values that `getHours()`, `getDay()`
  and `getMonth()` return on it are carried alongside as precomputed
  fields (date decoding itself is not re-implemented; the source's
  timezone convention is abstracted).
- The impure primitives the source calls - `crypto.randomUUID()`,
  `Math.random()` and the current time `new Date()` / `Date.now()` - are
  gathered in an explicit environment `Env`: `uuid n` / `rand n` are the
  values returned by the n-th call of the corresponding primitive, and
  `now` is the current epoch milliseconds.
- `Math.sqrt` is taken as a parameter (`sqrt : JsNum → JsNum`) because
  exact square roots are not rational; every property proved here holds
  for any such function.
-/

namespace NEMS

/-- Model of a JavaScript number: a finite value (exact rational), NaN,
or a signed infinity. -/
inductive JsNum where
  | fin (q : ℚ)
  | nan
  | inf
  | ninf
deriving DecidableEq

namespace JsNum

/-- JS addition. -/
def add : JsNum → JsNum → JsNum
  | fin a, fin b => fin (a + b)
  | nan, _ => nan
  | _, nan => nan
  | inf, ninf => nan
  | ninf, inf => nan
  | inf, _ => inf
  | _, inf => inf
  | ninf, _ => ninf
  | _, ninf => ninf

/-- JS negation. -/
def neg : JsNum → JsNum
  | fin a => fin (-a)
  | nan => nan
  | inf => ninf
  | ninf => inf

/-- JS subtraction. -/
def sub (a b : JsNum) : JsNum := add a (neg b)

/-- JS multiplication. -/
def mul : JsNum → JsNum → JsNum
  | fin a, fin b => fin (a * b)
  | nan, _ => nan
  | _, nan => nan
  | inf, fin b => if b = 0 then nan else if 0 < b then inf else ninf
  | fin a, inf => if a = 0 then nan else if 0 < a then inf else ninf
  | ninf, fin b => if b = 0 then nan else if 0 < b then ninf else inf
  | fin a, ninf => if a = 0 then nan else if 0 < a then ninf else inf
  | inf, inf => inf
  | inf, ninf => ninf
  | ninf, inf => ninf
  | ninf, ninf => inf

/-- JS division.  In particular 0/0 is NaN and x/0 for x ≠ 0 is a signed
infinity (the sign of a zero denominator is abstracted to +0). -/
def div : JsNum → JsNum → JsNum
  | fin a, fin b =>
      if b = 0 then (if a = 0 then nan else if 0 < a then inf else ninf)
      else fin (a / b)
  | nan, _ => nan
  | _, nan => nan
  | inf, fin b => if 0 ≤ b then inf else ninf
  | ninf, fin b => if 0 ≤ b then ninf else inf
  | fin _, inf => fin 0
  | fin _, ninf => fin 0
  | inf, inf => nan
  | inf, ninf => nan
  | ninf, inf => nan
  | ninf, ninf => nan

/-- JS strict less-than as a boolean; false whenever either side is NaN. -/
def lt : JsNum → JsNum → Bool
  | fin a, fin b => decide (a < b)
  | nan, _ => false
  | _, nan => false
  | inf, _ => false
  | _, inf => true
  | _, ninf => false
  | ninf, _ => true

/-- Math.max: NaN if either argument is NaN. -/
def max2 : JsNum → JsNum → JsNum
  | nan, _ => nan
  | _, nan => nan
  | a, b => if lt a b then b else a

/-- Math.min: NaN if either argument is NaN. -/
def min2 : JsNum → JsNum → JsNum
  | nan, _ => nan
  | _, nan => nan
  | a, b => if lt a b then a else b

/-- Math.abs. -/
def abs2 : JsNum → JsNum
  | fin a => fin |a|
  | nan => nan
  | inf => inf
  | ninf => inf

/-- Math.round: round half toward positive infinity. -/
def round2 : JsNum → JsNum
  | fin a => fin ((⌊a + 1/2⌋ : ℤ) : ℚ)
  | nan => nan
  | inf => inf
  | ninf => ninf

instance : Add JsNum := ⟨add⟩
instance : Sub JsNum := ⟨sub⟩
instance : Mul JsNum := ⟨mul⟩
instance : Div JsNum := ⟨div⟩
instance : Neg JsNum := ⟨neg⟩

instance (n : Nat) : OfNat JsNum n := ⟨fin (OfNat.ofNat n)⟩

theorem add_def (a b : JsNum) : a + b = add a b := rfl

theorem sub_def (a b : JsNum) : a - b = sub a b := rfl

theorem mul_def (a b : JsNum) : a * b = mul a b := rfl

theorem div_def (a b : JsNum) : a / b = div a b := rfl

theorem neg_def (a : JsNum) : -a = neg a := rfl

theorem div_fin_fin {b : ℚ} (a : ℚ) (hb : b ≠ 0) :
    div (fin a) (fin b) = fin (a / b) := by
  simp [div, hb]

theorem add_fin_fin (a b : ℚ) : fin a + fin b = fin (a + b) := rfl

theorem sub_fin_fin (a b : ℚ) : fin a - fin b = fin (a - b) := by
  show add (fin a) (neg (fin b)) = fin (a - b)
  simp [add, neg, sub_eq_add_neg]

theorem mul_fin_fin (a b : ℚ) : fin a * fin b = fin (a * b) := rfl

end JsNum

open JsNum (fin)

/-- An energy reading.  `timestamp` is `new Date(t).getTime()` in epoch
milliseconds; `hour`, `weekday` and `month` are the values returned by
`getHours()`, `getDay()` and `getMonth()` on that date. -/
structure EnergyData where
  timestamp : ℤ
  hour : ℕ
  weekday : ℕ
  month : ℕ
  value : ℚ
deriving DecidableEq

/-- The impure primitives used by the analyzers, made explicit: `now` is
the current epoch milliseconds, `uuid n` the n-th value returned by
`crypto.randomUUID()` and `rand n` the n-th value returned by
`Math.random()`. -/
structure Env where
  now : ℤ
  uuid : ℕ → String
  rand : ℕ → ℚ

/-- Sum of the `value` fields of a list of readings
(`data.reduce((sum, r) => sum + r.value, 0)`). -/
def totalValue (data : List EnergyData) : ℚ :=
  data.foldl (fun s r => s + r.value) 0

namespace CostAnalyzer

def PEAK_RATE : ℚ := 0.15
def OFF_PEAK_RATE : ℚ := 0.08
def DEMAND_CHARGE_RATE : ℚ := 10
def FIXED_CHARGE : ℚ := 50
def TAX_RATE : ℚ := 0.08

/-- Peak hours are 9am-5pm inclusive (`hour >= 9 && hour <= 17`). -/
def isPeakHour (hour : ℕ) : Bool := 9 ≤ hour && hour ≤ 17

/-- The per-reading rate: peak rate during peak hours, off-peak rate
otherwise. -/
def rateFor (hour : ℕ) : ℚ := if isPeakHour hour then PEAK_RATE else OFF_PEAK_RATE

structure CostBreakdown where
  id : String
  energy_data_id : String
  peak_cost : ℚ
  off_peak_cost : ℚ
  demand_charges : ℚ
  fixed_charges : ℚ
  taxes : ℚ
  other_charges : ℚ
  created_at : ℤ
deriving DecidableEq

/-- `calculateBreakdown`: one pass over the readings accumulating
(peakCost, offPeakCost, peakDemand) exactly as the source's `forEach`
with three mutable accumulators does. -/
def calculateBreakdown (data : List EnergyData) (env : Env) : CostBreakdown :=
  let acc := data.foldl
    (fun s r =>
      if isPeakHour r.hour then
        (s.1 + r.value * PEAK_RATE, s.2.1, max s.2.2 r.value)
      else
        (s.1, s.2.1 + r.value * OFF_PEAK_RATE, s.2.2))
    ((0 : ℚ), (0 : ℚ), (0 : ℚ))
  let peakCost := acc.1
  let offPeakCost := acc.2.1
  let peakDemand := acc.2.2
  let demandCharges := peakDemand * DEMAND_CHARGE_RATE
  let subtotal := peakCost + offPeakCost + demandCharges + FIXED_CHARGE
  { id := env.uuid 0
    energy_data_id := ""
    peak_cost := peakCost
    off_peak_cost := offPeakCost
    demand_charges := demandCharges
    fixed_charges := FIXED_CHARGE
    taxes := subtotal * TAX_RATE
    other_charges := 0
    created_at := env.now }

structure CostMetrics where
  averageCostPerKwh : JsNum
  peakCostPerKwh : JsNum
  offPeakCostPerKwh : JsNum
  demandCostPerKw : JsNum
deriving DecidableEq

/-- `calculateMetrics`: the four ratios, written exactly as in the
source - note that none of the divisions is guarded. -/
def calculateMetrics (breakdown : CostBreakdown) (totalKwh peakKwh : ℚ) : CostMetrics :=
  { averageCostPerKwh := JsNum.div (fin (breakdown.peak_cost + breakdown.off_peak_cost)) (fin totalKwh)
    peakCostPerKwh := JsNum.div (fin breakdown.peak_cost) (fin peakKwh)
    offPeakCostPerKwh := JsNum.div (fin breakdown.off_peak_cost) (fin (totalKwh - peakKwh))
    demandCostPerKw := JsNum.div (fin breakdown.demand_charges) (fin (peakKwh / PEAK_RATE)) }

structure PeriodCosts where
  totalCost : ℚ
  averageCost : JsNum
  peakCosts : ℚ
  offPeakCosts : ℚ
deriving DecidableEq

structure PercentageChange where
  totalCost : JsNum
  averageCost : JsNum
  peakCosts : JsNum
  offPeakCosts : JsNum
deriving DecidableEq

structure CostComparison where
  currentPeriod : PeriodCosts
  previousPeriod : PeriodCosts
  percentageChange : PercentageChange
deriving DecidableEq

/-- `calculateComparison`: breakdowns of both reading sets and the
percentage-change formula `(current - previous) / previous * 100`,
unguarded, as in the source. -/
def calculateComparison (currentData previousData : List EnergyData) (env : Env) : CostComparison :=
  let currentBreakdown := calculateBreakdown currentData env
  let previousBreakdown := calculateBreakdown previousData env
  let currentTotal := currentBreakdown.peak_cost + currentBreakdown.off_peak_cost
  let previousTotal := previousBreakdown.peak_cost + previousBreakdown.off_peak_cost
  let currentAvg := JsNum.div (fin currentTotal) (fin currentData.length)
  let previousAvg := JsNum.div (fin previousTotal) (fin previousData.length)
  { currentPeriod :=
      { totalCost := currentTotal
        averageCost := currentAvg
        peakCosts := currentBreakdown.peak_cost
        offPeakCosts := currentBreakdown.off_peak_cost }
    previousPeriod :=
      { totalCost := previousTotal
        averageCost := previousAvg
        peakCosts := previousBreakdown.peak_cost
        offPeakCosts := previousBreakdown.off_peak_cost }
    percentageChange :=
      { totalCost := JsNum.div (fin (currentTotal - previousTotal)) (fin previousTotal) * fin 100
        averageCost := (currentAvg - previousAvg) / previousAvg * fin 100
        peakCosts := JsNum.div (fin (currentBreakdown.peak_cost - previousBreakdown.peak_cost)) (fin previousBreakdown.peak_cost) * fin 100
        offPeakCosts := JsNum.div (fin (currentBreakdown.off_peak_cost - previousBreakdown.off_peak_cost)) (fin previousBreakdown.off_peak_cost) * fin 100 } }

inductive Severity where
  | low
  | medium
  | high
deriving DecidableEq

structure AnomalyImpact where
  cost : JsNum
  efficiency : ℚ
deriving DecidableEq

structure AnomalyContext where
  timeOfDay : String
  dayOfWeek : String
  seasonality : String
deriving DecidableEq

structure CostAnomaly where
  date : ℤ
  actualCost : ℚ
  expectedCost : JsNum
  deviation : JsNum
  severity : Severity
  confidence : JsNum
  impact : AnomalyImpact
  context : AnomalyContext
  rootCause : String
deriving DecidableEq

def dayNames : List String :=
  ["Sunday", "Monday", "Tuesday", "Wednesday", "Thursday", "Friday", "Saturday"]

/-- `determineSeasonality` from the reading's month (`getMonth()`,
0-based). -/
def determineSeasonality (month : ℕ) : String :=
  if 5 ≤ month && month ≤ 8 then "Summer"
  else if 9 ≤ month && month ≤ 11 then "Fall"
  else if 2 ≤ month && month ≤ 4 then "Spring"
  else "Winter"

/-- `determineRootCause`: fixed decision table on hour, weekday and
deviation. -/
def determineRootCause (hour weekday : ℕ) (deviation : JsNum) : String :=
  if isPeakHour hour && JsNum.lt (fin 2) deviation then
    "Significant peak hour usage spike"
  else if weekday == 0 || weekday == 6 then
    "Unusual weekend activity"
  else if 22 ≤ hour || hour ≤ 5 then
    "Unexpected nighttime consumption"
  else
    "Normal operational variation"

/-- `detectAnomalies`: per-reading cost, then mean / population standard
deviation of the costs, then one anomaly per cost record.  The source's
intermediate record keeps only the timestamp string and re-derives hour
and weekday from it; here the reading is carried alongside its cost.
`Math.sqrt` is the `sqrt` parameter. -/
def detectAnomalies (sqrt : JsNum → JsNum) (data : List EnergyData) : List CostAnomaly :=
  let costs := data.map (fun r => (r, r.value * rateFor r.hour))
  let avgCost := JsNum.div (fin (costs.foldl (fun s c => s + c.2) 0)) (fin costs.length)
  let stdDev := sqrt (JsNum.div
    (costs.foldl (fun s c => s + (fin c.2 - avgCost) * (fin c.2 - avgCost)) (fin 0))
    (fin costs.length))
  costs.map (fun c =>
    let deviation := JsNum.abs2 (fin c.2 - avgCost) / stdDev
    let severity : Severity :=
      if JsNum.lt (fin 2) deviation then .high
      else if JsNum.lt (fin 1) deviation then .medium
      else .low
    { date := c.1.timestamp
      actualCost := c.2
      expectedCost := avgCost
      deviation := deviation
      severity := severity
      confidence := JsNum.max2 (fin 0.7) (fin 1 - deviation / fin 4)
      impact :=
        { cost := JsNum.abs2 (fin c.2 - avgCost)
          efficiency := if JsNum.lt (fin 1) deviation then 0.8 else 0.4 }
      context :=
        { timeOfDay := toString c.1.hour ++ ":00"
          dayOfWeek := dayNames.getD c.1.weekday ""
          seasonality := determineSeasonality c.1.month }
      rootCause := determineRootCause c.1.hour c.1.weekday deviation })

structure ConfidenceInterval where
  lower : ℚ
  upper : ℚ
deriving DecidableEq

structure CostForecast where
  date : ℤ
  predictedCost : ℚ
  confidenceInterval : ConfidenceInterval
deriving DecidableEq

/-- Model of `new Date().setHours(hour, 0, 0, 0)`: the start of the
current day plus `hour` hours, in epoch milliseconds. -/
def dateSetHours (now : ℤ) (hour : ℕ) : ℤ :=
  now - now % 86400000 + hour * 3600000

/-- `generateForecast`.  The source initialises its per-hour table with
`new Array(24).fill(sharedObject)`, so all 24 slots alias ONE accumulator
object: every reading's cost is added to that single object's `sum` and
its `count` is incremented once per reading.  The per-slot state after
the loop is therefore the same (total, length) pair for every hour, and
this embedding accumulates exactly that shared pair. -/
def generateForecast (data : List EnergyData) (env : Env) : List CostForecast :=
  let acc := data.foldl
    (fun s r => (s.1 + r.value * rateFor r.hour, s.2 + 1))
    ((0 : ℚ), (0 : ℕ))
  (List.range 24).map (fun hour =>
    let baselineCost : ℚ := if 0 < acc.2 then acc.1 / acc.2 else 0
    let variance := baselineCost * 0.2
    { date := dateSetHours env.now hour
      predictedCost := baselineCost
      confidenceInterval :=
        { lower := max 0 (baselineCost - variance)
          upper := baselineCost + variance } })

structure TimeOfUseCost where
  hour : ℕ
  weekday : ℕ
  cost : ℚ
deriving DecidableEq

/-- `generateTimeOfUseCosts`: for every (weekday, hour) pair, the
average usage of the matching readings (`sum / (length || 1)`) times the
applicable rate. -/
def generateTimeOfUseCosts (data : List EnergyData) : List TimeOfUseCost :=
  (List.range 7).flatMap (fun weekday =>
    (List.range 24).map (fun hour =>
      let relevantData := data.filter (fun r => r.weekday == weekday && r.hour == hour)
      let avgUsage : ℚ := totalValue relevantData /
        (if relevantData.length = 0 then 1 else relevantData.length)
      { hour := hour
        weekday := weekday
        cost := avgUsage * rateFor hour }))

inductive OpportunityCategory where
  | peakReduction
  | efficiency
  | rateOptimization
  | demandResponse
deriving DecidableEq

inductive Priority where
  | low
  | medium
  | high
deriving DecidableEq

structure RiskProfile where
  level : Priority
  factors : List String
deriving DecidableEq

structure OpportunityMLInsights where
  keyFactors : List String
  sensitivityAnalysis : List (String × ℚ)
  riskProfile : RiskProfile
deriving DecidableEq

structure CostSavingOpportunity where
  id : String
  description : String
  potentialSavings : ℚ
  implementationCost : ℚ
  paybackPeriod : ℚ
  category : OpportunityCategory
  priority : Priority
  confidence : ℚ
  implementationSteps : List String
  roi : ℚ
  mlInsights : OpportunityMLInsights
deriving DecidableEq

/-- `generateSavingOpportunities`: the three conditional pushes become a
concatenation of three conditional singleton lists. -/
def generateSavingOpportunities (breakdown : CostBreakdown)
    (timeOfUse : List TimeOfUseCost) (env : Env) : List CostSavingOpportunity :=
  let totalCost := breakdown.peak_cost + breakdown.off_peak_cost
  let avgPeakCost : ℚ :=
    ((timeOfUse.filter (fun tou => isPeakHour tou.hour)).foldl (fun s tou => s + tou.cost) 0) / 9
  (if breakdown.peak_cost > breakdown.off_peak_cost * 1.5 then
    [{ id := env.uuid 1
       description := "Shift peak usage to off-peak hours"
       potentialSavings := breakdown.peak_cost * 0.2
       implementationCost := 5000
       paybackPeriod := 12
       category := .peakReduction
       priority := .high
       confidence := 0.85
       implementationSteps :=
         ["Identify peak usage equipment", "Create load shifting schedule",
          "Install automated controls", "Train staff on new procedures"]
       roi := breakdown.peak_cost * 0.2 * 12 / 5000
       mlInsights :=
         { keyFactors := ["peak demand", "operational schedule", "equipment efficiency"]
           sensitivityAnalysis := [("peak hour reduction", 0.6), ("equipment upgrades", 0.4)]
           riskProfile :=
             { level := .low
               factors := ["proven technology", "minimal disruption"] } } }]
  else []) ++
  (if avgPeakCost > PEAK_RATE * 1.2 then
    [{ id := env.uuid 2
       description := "Optimize rate structure"
       potentialSavings := totalCost * 0.15
       implementationCost := 2000
       paybackPeriod := 6
       category := .rateOptimization
       priority := .medium
       confidence := 0.9
       implementationSteps :=
         ["Analyze current rate structure", "Compare available rate plans",
          "Calculate savings potential", "Submit rate change request"]
       roi := totalCost * 0.15 * 12 / 2000
       mlInsights :=
         { keyFactors := ["rate structure", "usage patterns", "peak demand"]
           sensitivityAnalysis := [("rate differential", 0.7), ("usage timing", 0.3)]
           riskProfile :=
             { level := .low
               factors := ["no operational changes", "guaranteed savings"] } } }]
  else []) ++
  (if breakdown.demand_charges > totalCost * 0.3 then
    [{ id := env.uuid 3
       description := "Implement demand response program"
       potentialSavings := breakdown.demand_charges * 0.25
       implementationCost := 10000
       paybackPeriod := 18
       category := .demandResponse
       priority := .high
       confidence := 0.8
       implementationSteps :=
         ["Evaluate demand response programs", "Install monitoring equipment",
          "Develop response strategies", "Train staff on procedures"]
       roi := breakdown.demand_charges * 0.25 * 12 / 10000
       mlInsights :=
         { keyFactors := ["peak demand", "response capability", "program incentives"]
           sensitivityAnalysis := [("demand reduction", 0.5), ("response time", 0.5)]
           riskProfile :=
             { level := .medium
               factors := ["operational changes", "staff training needed"] } } }]
  else [])

structure UsagePatternEntry where
  bucket : ℕ
  avgUsage : ℚ
  confidence : ℚ
deriving DecidableEq

structure CostDriver where
  factor : String
  impact : ℚ
  confidence : ℚ
deriving DecidableEq

structure OptimizationItem where
  category : String
  amount : ℚ
  confidence : ℚ
deriving DecidableEq

structure MLInsights where
  daily : List UsagePatternEntry
  weekly : List UsagePatternEntry
  seasonal : List UsagePatternEntry
  costDrivers : List CostDriver
  optimizationTotal : ℚ
  optimizationBreakdown : List OptimizationItem
deriving DecidableEq

/-- `generateMLInsights`.  All three pattern tables are initialised with
`new Array(N).fill(sharedObject)`, so - as in `generateForecast` - every
slot of each table aliases one accumulator that ends up holding the
total usage and total count of ALL readings; the three tables therefore
hold the same (total, count) pair in every slot. -/
def generateMLInsights (data : List EnergyData) : MLInsights :=
  let total := totalValue data
  let n := data.length
  let avg : ℚ := if 0 < n then total / n else 0
  { daily := (List.range 24).map (fun hour =>
      { bucket := hour, avgUsage := avg, confidence := min 1 ((n : ℚ) / 30) })
    weekly := (List.range 7).map (fun day =>
      { bucket := day, avgUsage := avg, confidence := min 1 ((n : ℚ) / 4) })
    seasonal := (List.range 12).map (fun month =>
      { bucket := month, avgUsage := avg, confidence := min 1 ((n : ℚ) / 30) })
    costDrivers :=
      [{ factor := "Peak Demand", impact := 0.4, confidence := 0.9 },
       { factor := "Time of Use", impact := 0.3, confidence := 0.85 },
       { factor := "Weather", impact := 0.2, confidence := 0.75 },
       { factor := "Day Type", impact := 0.1, confidence := 0.95 }]
    optimizationTotal := 0.25
    optimizationBreakdown :=
      [{ category := "Peak Reduction", amount := 0.15, confidence := 0.85 },
       { category := "Load Shifting", amount := 0.05, confidence := 0.9 },
       { category := "Efficiency", amount := 0.05, confidence := 0.8 }] }

structure CostAnalysisReport where
  breakdown : CostBreakdown
  metrics : CostMetrics
  comparison : CostComparison
  forecast : List CostForecast
  anomalies : List CostAnomaly
  timeOfUse : List TimeOfUseCost
  savingOpportunities : List CostSavingOpportunity
  mlInsights : MLInsights
  isLoading : Bool
  isError : Bool
deriving DecidableEq

/-- `analyzeCosts`: computes total and peak kWh, then orchestrates all
components.  When the supplied previous reading set is empty (the
default), the comparison is taken against the current set itself. -/
def analyzeCosts (sqrt : JsNum → JsNum) (currentData : List EnergyData)
    (previousData : List EnergyData) (env : Env) : CostAnalysisReport :=
  let totalKwh := totalValue currentData
  let peakKwh := totalValue (currentData.filter (fun r => isPeakHour r.hour))
  let breakdown := calculateBreakdown currentData env
  let timeOfUse := generateTimeOfUseCosts currentData
  { breakdown := breakdown
    metrics := calculateMetrics breakdown totalKwh peakKwh
    comparison := calculateComparison currentData
      (if previousData.length ≠ 0 then previousData else currentData) env
    forecast := generateForecast currentData env
    anomalies := detectAnomalies sqrt currentData
    timeOfUse := timeOfUse
    savingOpportunities := generateSavingOpportunities breakdown timeOfUse env
    mlInsights := generateMLInsights currentData
    isLoading := false
    isError := false }

end CostAnalyzer

namespace DemandAnalyzer

/-- Insert a reading into a list sorted ascending by timestamp. -/
def insertByTs (r : EnergyData) : List EnergyData → List EnergyData
  | [] => [r]
  | x :: xs => if r.timestamp ≤ x.timestamp then r :: x :: xs else x :: insertByTs r xs

/-- Ascending sort by timestamp: the model of
`arr.sort((a, b) => new Date(a.timestamp).getTime() - new Date(b.timestamp).getTime())`. -/
def sortByTs : List EnergyData → List EnergyData
  | [] => []
  | x :: xs => insertByTs x (sortByTs xs)

/-- 30 days in milliseconds.  The source computes the cutoff with
`setDate(getDate() - 30)`, i.e. the same instant 30 calendar days
earlier; daylight-saving shifts are abstracted away. -/
def THIRTY_DAYS_MS : ℤ := 30 * 86400000

/-- `updateHistoricalData`: merge the batch into the buffer, sort by
timestamp, then keep only readings at or after now minus 30 days. -/
def updateHistoricalData (historicalData newData : List EnergyData) (now : ℤ) : List EnergyData :=
  (sortByTs (historicalData ++ newData)).filter
    (fun r => now - THIRTY_DAYS_MS ≤ r.timestamp)

/-- A sequence of `updateHistoricalData` calls applied to an initial
buffer: each element of `updates` is one call's (new readings, current
time). -/
def runUpdates (init : List EnergyData) (updates : List (List EnergyData × ℤ)) : List EnergyData :=
  updates.foldl (fun h u => updateHistoricalData h u.1 u.2) init

end DemandAnalyzer

namespace SustainabilityAnalyzer

def BASELINE_EMISSIONS : ℚ := 0.5
def INDUSTRY_BENCHMARK : ℚ := 75
def SQUARE_FOOTAGE : ℚ := 10000

structure CarbonSource where
  source : String
  emissions : ℚ
  percentage : ℚ
  trend : String
deriving DecidableEq

structure EmissionForecastEntry where
  timestamp : ℤ
  predictedEmissions : ℚ
  confidence : ℚ
deriving DecidableEq

structure CarbonFootprint where
  totalEmissions : ℚ
  emissionsPerKwh : JsNum
  carbonIntensity : JsNum
  reductionFromBaseline : JsNum
  sources : List CarbonSource
  forecast : List EmissionForecastEntry
deriving DecidableEq

/-- `calculateCarbonFootprint`.  `emissionsPerKwh = emissions / totalUsage`
is unguarded; the forecast entries perturb `emissions / 24` with
`Math.random()` and stamp hours of the current time. -/
def calculateCarbonFootprint (data : List EnergyData) (env : Env) : CarbonFootprint :=
  let totalUsage := totalValue data
  let emissions := totalUsage * 0.4
  { totalEmissions := emissions
    emissionsPerKwh := JsNum.div (fin emissions) (fin totalUsage)
    carbonIntensity := JsNum.div (fin emissions) (fin totalUsage) * fin 1000
    reductionFromBaseline :=
      JsNum.div (fin BASELINE_EMISSIONS - JsNum.div (fin emissions) (fin totalUsage))
        (fin BASELINE_EMISSIONS) * fin 100
    sources :=
      [{ source := "Grid Power", emissions := emissions * 0.6, percentage := 60, trend := "decreasing" },
       { source := "On-site Generation", emissions := emissions * 0.3, percentage := 30, trend := "stable" },
       { source := "Backup Systems", emissions := emissions * 0.1, percentage := 10, trend := "increasing" }]
    forecast := (List.range 24).map (fun (i : ℕ) =>
      { timestamp := env.now + (i : ℤ) * 3600000
        predictedEmissions := emissions / 24 * (1 + env.rand i * 0.2 - 0.1)
        confidence := 0.9 - (i : ℚ) * 0.02 }) }

structure GenerationEntry where
  source : String
  amount : ℚ
  efficiency : ℚ
  availability : ℚ
deriving DecidableEq

structure RenewablePotential where
  solar : ℚ
  wind : ℚ
  storage : ℚ
deriving DecidableEq

structure RenewableSavings where
  cost : ℚ
  carbon : ℚ
deriving DecidableEq

structure RenewableEnergy where
  percentage : JsNum
  solarContribution : ℚ
  windContribution : ℚ
  gridUsage : ℚ
  peakRenewableHours : List ℤ
  generation : List GenerationEntry
  potential : RenewablePotential
  savings : RenewableSavings
deriving DecidableEq

/-- `identifyPeakRenewableHours`: every 4th reading's timestamp, capped
at 5 entries. -/
def identifyPeakRenewableHours (data : List EnergyData) : List ℤ :=
  (((List.range data.length).zip data).filter (fun p => p.1 % 4 == 0)).map
    (fun p => p.2.timestamp) |>.take 5

/-- `calculateRenewableMetrics`.  `percentage` divides by the total
usage without a guard. -/
def calculateRenewableMetrics (data : List EnergyData) : RenewableEnergy :=
  let totalUsage := totalValue data
  let solarContribution := totalUsage * 0.15
  let windContribution := totalUsage * 0.25
  { percentage :=
      JsNum.div (fin (solarContribution + windContribution)) (fin totalUsage) * fin 100
    solarContribution := solarContribution
    windContribution := windContribution
    gridUsage := totalUsage - (solarContribution + windContribution)
    peakRenewableHours := identifyPeakRenewableHours data
    generation :=
      [{ source := "Solar", amount := solarContribution, efficiency := 0.20, availability := 0.98 },
       { source := "Wind", amount := windContribution, efficiency := 0.35, availability := 0.95 }]
    potential :=
      { solar := solarContribution * 1.5
        wind := windContribution * 1.3
        storage := totalUsage * 0.2 }
    savings :=
      { cost := (solarContribution + windContribution) * 0.12
        carbon := (solarContribution + windContribution) * 0.4 } }

structure EquipmentMaintenance where
  status : String
  nextService : ℤ
  efficiency : ℚ
deriving DecidableEq

structure EquipmentScore where
  name : String
  score : ℚ
  usage : ℚ
  potential : ℚ
  maintenance : EquipmentMaintenance
deriving DecidableEq

structure OptimizationStep where
  action : String
  impact : ℚ
  cost : ℚ
deriving DecidableEq

structure EfficiencyOptimization where
  current : ℚ
  potential : ℚ
  steps : List OptimizationStep
deriving DecidableEq

structure EfficiencyMetrics where
  energyPerSquareFoot : ℚ
  peakEfficiency : ℚ
  offPeakEfficiency : ℚ
  equipmentScores : List EquipmentScore
  wasteEnergy : JsNum
  optimization : EfficiencyOptimization
deriving DecidableEq

/-- `calculateWasteEnergy`: usage beyond 110% of the batch average,
summed; the average is the unguarded `totalUsage / data.length`. -/
def calculateWasteEnergy (data : List EnergyData) (avgUsage : JsNum) : JsNum :=
  data.foldl (fun waste r => waste + JsNum.max2 (fin 0) (fin r.value - avgUsage * fin 1.1)) (fin 0)

/-- `calculateEfficiencyMetrics`. -/
def calculateEfficiencyMetrics (data : List EnergyData) (env : Env) : EfficiencyMetrics :=
  let totalUsage := totalValue data
  let avgUsage := JsNum.div (fin totalUsage) (fin data.length)
  { energyPerSquareFoot := totalUsage / SQUARE_FOOTAGE
    peakEfficiency := 85
    offPeakEfficiency := 90
    equipmentScores :=
      [{ name := "hvac", score := 82, usage := totalUsage * 0.4, potential := totalUsage * 0.35
         maintenance := { status := "good", nextService := env.now + 30 * 86400000, efficiency := 0.88 } },
       { name := "lighting", score := 88, usage := totalUsage * 0.2, potential := totalUsage * 0.15
         maintenance := { status := "warning", nextService := env.now + 15 * 86400000, efficiency := 0.92 } },
       { name := "equipment", score := 75, usage := totalUsage * 0.4, potential := totalUsage * 0.3
         maintenance := { status := "critical", nextService := env.now + 5 * 86400000, efficiency := 0.78 } }]
    wasteEnergy := calculateWasteEnergy data avgUsage
    optimization :=
      { current := 0.82
        potential := 0.90
        steps :=
          [{ action := "Optimize HVAC schedules", impact := 0.05, cost := 5000 },
           { action := "Upgrade lighting controls", impact := 0.03, cost := 8000 }] } }

structure ComponentScores where
  carbonScore : JsNum
  renewableScore : JsNum
  efficiencyScore : JsNum
  wasteScore : JsNum
deriving DecidableEq

inductive RecommendationCategory where
  | carbon
  | renewable
  | efficiency
  | waste
deriving DecidableEq

structure RecommendationImpact where
  metric : String
  value : ℚ
  unit : String
deriving DecidableEq

structure RecommendationRisk where
  description : String
  severity : CostAnalyzer.Priority
  mitigation : String
deriving DecidableEq

structure RecommendationImplementation where
  steps : List String
  timeline : String
  requirements : List String
  risks : List RecommendationRisk
deriving DecidableEq

structure RecommendationMLInsights where
  confidence : ℚ
  factors : List String
  sensitivity : List (String × ℚ)
deriving DecidableEq

structure SustainabilityRecommendation where
  id : String
  category : RecommendationCategory
  title : String
  description : String
  impact : RecommendationImpact
  priority : CostAnalyzer.Priority
  estimatedCost : ℚ
  paybackPeriod : ℚ
  implementation : RecommendationImplementation
  mlInsights : RecommendationMLInsights
deriving DecidableEq

/-- `generateRecommendations`: a carbon recommendation when the carbon
score is below 70 and a renewable recommendation when the renewable
score is below 50 (JS `<`, so false on NaN scores). -/
def generateRecommendations (scores : ComponentScores) (env : Env) :
    List SustainabilityRecommendation :=
  (if JsNum.lt scores.carbonScore (fin 70) then
    [{ id := env.uuid 0
       category := .carbon
       title := "Implement Carbon Reduction Measures"
       description := "Switch to energy-efficient equipment and optimize HVAC schedules"
       impact := { metric := "CO2 Reduction", value := 25, unit := "tons/year" }
       priority := .high
       estimatedCost := 50000
       paybackPeriod := 24
       implementation :=
         { steps :=
             ["Audit current equipment", "Identify replacement options",
              "Schedule installations", "Monitor performance"]
           timeline := "6 months"
           requirements := ["Capital budget", "Technical expertise"]
           risks :=
             [{ description := "Equipment compatibility", severity := .medium
                mitigation := "Conduct thorough assessment" }] }
       mlInsights :=
         { confidence := 0.85
           factors := ["Equipment age", "Usage patterns"]
           sensitivity := [("Implementation speed", 0.7), ("Staff training", 0.3)] } }]
  else []) ++
  (if JsNum.lt scores.renewableScore (fin 50) then
    [{ id := env.uuid 1
       category := .renewable
       title := "Increase Renewable Energy Usage"
       description := "Install solar panels or purchase renewable energy credits"
       impact := { metric := "Renewable Percentage", value := 30, unit := "%" }
       priority := .medium
       estimatedCost := 75000
       paybackPeriod := 36
       implementation :=
         { steps := ["Site assessment", "System design", "Installation", "Grid integration"]
           timeline := "4 months"
           requirements := ["Roof space", "Structural assessment"]
           risks :=
             [{ description := "Weather variability", severity := .low
                mitigation := "Include battery storage" }] }
       mlInsights :=
         { confidence := 0.9
           factors := ["Solar exposure", "Energy demand"]
           sensitivity := [("Installation timing", 0.4), ("System size", 0.6)] } }]
  else [])

/-- `calculateTrend` against the industry benchmark of 75 (stable when
the score is NaN, since both JS comparisons are then false). -/
def calculateTrend (currentScore : JsNum) : String :=
  if JsNum.lt (fin (INDUSTRY_BENCHMARK + 5)) currentScore then "improving"
  else if JsNum.lt currentScore (fin (INDUSTRY_BENCHMARK - 5)) then "declining"
  else "stable"

structure HistoricalProgressEntry where
  timestamp : ℤ
  score : JsNum
  majorChanges : List String
deriving DecidableEq

structure ScoreForecastEntry where
  timestamp : ℤ
  predictedScore : JsNum
  confidence : ℚ
deriving DecidableEq

structure SustainabilityScore where
  overall : JsNum
  components : ComponentScores
  industryComparison : JsNum
  trend : String
  recommendations : List SustainabilityRecommendation
  historicalProgress : List HistoricalProgressEntry
  forecast : List ScoreForecastEntry
deriving DecidableEq

/-- Model of `setMonth(getMonth() + i)` (also with negative i): month
steps are abstracted to 30-day steps in epoch milliseconds. -/
def monthStep (now : ℤ) (i : ℤ) : ℤ := now + i * (30 * 86400000)

/-- `calculateSustainabilityScore`: the four component scores, the
weighted overall score (`Math.round`), the randomised historical
progress and forecast, the trend and the recommendations. -/
def calculateSustainabilityScore (carbon : CarbonFootprint) (renewable : RenewableEnergy)
    (efficiency : EfficiencyMetrics) (env : Env) : SustainabilityScore :=
  let carbonScore := JsNum.min2 (fin 100)
    ((fin 1 - carbon.emissionsPerKwh / fin BASELINE_EMISSIONS) * fin 100)
  let renewableScore := renewable.percentage
  let efficiencyScore : JsNum := fin ((efficiency.peakEfficiency + efficiency.offPeakEfficiency) / 2)
  let wasteScore := JsNum.max2 (fin 0) (fin 100 - efficiency.wasteEnergy / fin 10)
  let overall := JsNum.round2
    (carbonScore * fin 0.3 + renewableScore * fin 0.3 +
     efficiencyScore * fin 0.2 + wasteScore * fin 0.2)
  { overall := overall
    components :=
      { carbonScore := carbonScore
        renewableScore := renewableScore
        efficiencyScore := efficiencyScore
        wasteScore := wasteScore }
    industryComparison := (overall - fin INDUSTRY_BENCHMARK) / fin INDUSTRY_BENCHMARK * fin 100
    trend := calculateTrend overall
    recommendations := generateRecommendations
      { carbonScore := carbonScore
        renewableScore := renewableScore
        efficiencyScore := efficiencyScore
        wasteScore := wasteScore } env
    historicalProgress := (List.range 12).map (fun (i : ℕ) =>
      { timestamp := monthStep env.now (-(i : ℤ))
        score := JsNum.max2 (fin 50) (overall - fin (i : ℚ) * (fin (env.rand (24 + i)) * fin 2 - fin 1))
        majorChanges := if i % 3 == 0 then ["Equipment Upgrade", "Solar Installation"] else [] })
    forecast := (List.range 12).map (fun (i : ℕ) =>
      { timestamp := monthStep env.now (i : ℤ)
        predictedScore := JsNum.min2 (fin 100) (overall + fin (i : ℚ) * (fin (env.rand (36 + i)) * fin 2))
        confidence := 0.9 - (i : ℚ) * 0.05 }) }

structure SeasonalPattern where
  season : String
  impact : ℚ
  confidence : ℚ
deriving DecidableEq

structure DailyPattern where
  timeOfDay : String
  efficiency : ℚ
  confidence : ℚ
deriving DecidableEq

structure WeatherPattern where
  condition : String
  impact : ℚ
  confidence : ℚ
deriving DecidableEq

structure MLAnomaly where
  timestamp : ℤ
  metric : String
  expected : ℚ
  actual : ℚ
  impact : ℚ
  confidence : ℚ
deriving DecidableEq

structure MLCorrelation where
  factor : String
  correlation : ℚ
  significance : ℚ
  confidence : ℚ
deriving DecidableEq

structure ShortTermPrediction where
  metric : String
  value : ℚ
  confidence : ℚ
  horizon : String
deriving DecidableEq

structure LongTermPrediction where
  metric : String
  trend : String
  confidence : ℚ
  factors : List String
deriving DecidableEq

structure MLSustainabilityInsights where
  seasonal : List SeasonalPattern
  daily : List DailyPattern
  weather : List WeatherPattern
  anomalies : List MLAnomaly
  correlations : List MLCorrelation
  shortTerm : List ShortTermPrediction
  longTerm : List LongTermPrediction
deriving DecidableEq

/-- `calculateMLInsights`: static pattern tables, random daily
efficiencies, and anomaly entries for the last five readings
(`data.slice(-5)`). -/
def calculateMLInsights (data : List EnergyData) (env : Env) : MLSustainabilityInsights :=
  { seasonal :=
      [{ season := "Summer", impact := 0.3, confidence := 0.85 },
       { season := "Winter", impact := 0.25, confidence := 0.82 },
       { season := "Spring", impact := 0.2, confidence := 0.88 },
       { season := "Fall", impact := 0.15, confidence := 0.87 }]
    daily := (List.range 24).map (fun (hour : ℕ) =>
      { timeOfDay := toString hour ++ ":00"
        efficiency := 0.8 + env.rand (48 + hour) * 0.2
        confidence := 0.9 - ((hour % 12 : ℕ) : ℚ) * 0.02 })
    weather :=
      [{ condition := "Temperature", impact := 0.4, confidence := 0.9 },
       { condition := "Humidity", impact := 0.2, confidence := 0.85 },
       { condition := "Cloud Cover", impact := 0.15, confidence := 0.8 }]
    anomalies := (data.drop (data.length - 5)).map (fun r =>
      { timestamp := r.timestamp
        metric := "Energy Usage"
        expected := r.value * 0.9
        actual := r.value
        impact := 0.1
        confidence := 0.85 })
    correlations :=
      [{ factor := "Occupancy", correlation := 0.8, significance := 0.95, confidence := 0.9 },
       { factor := "Temperature", correlation := 0.7, significance := 0.9, confidence := 0.85 },
       { factor := "Time of Day", correlation := 0.6, significance := 0.85, confidence := 0.8 }]
    shortTerm :=
      [{ metric := "Energy Usage", value := 150, confidence := 0.9, horizon := "1h" },
       { metric := "Efficiency", value := 0.85, confidence := 0.85, horizon := "4h" },
       { metric := "Carbon Intensity", value := 0.4, confidence := 0.8, horizon := "24h" }]
    longTerm :=
      [{ metric := "Sustainability Score", trend := "improving", confidence := 0.75
         factors := ["Equipment Upgrades", "Renewable Integration"] },
       { metric := "Carbon Emissions", trend := "decreasing", confidence := 0.8
         factors := ["Grid Decarbonization", "Efficiency Improvements"] }] }

structure SustainabilityMetrics where
  carbonFootprint : CarbonFootprint
  renewableEnergy : RenewableEnergy
  efficiency : EfficiencyMetrics
  sustainabilityScore : SustainabilityScore
  mlInsights : MLSustainabilityInsights
deriving DecidableEq

/-- `analyzeSustainability`: the public entry point. -/
def analyzeSustainability (data : List EnergyData) (env : Env) : SustainabilityMetrics :=
  let carbonFootprint := calculateCarbonFootprint data env
  let renewableEnergy := calculateRenewableMetrics data
  let efficiency := calculateEfficiencyMetrics data env
  { carbonFootprint := carbonFootprint
    renewableEnergy := renewableEnergy
    efficiency := efficiency
    sustainabilityScore := calculateSustainabilityScore carbonFootprint renewableEnergy efficiency env
    mlInsights := calculateMLInsights data env }

end SustainabilityAnalyzer

namespace CostAnalyzer

/-- Claim-side reading of one time-of-use cell: the plain average of the
matching readings times the applicable rate, and 0 when no reading
matches.  Compared against `generateTimeOfUseCosts` for C8. -/
def timeOfUseCellSpec (data : List EnergyData) (weekday hour : ℕ) : ℚ :=
  let rel := data.filter (fun r => r.weekday == weekday && r.hour == hour)
  if rel = [] then 0 else totalValue rel / rel.length * rateFor hour

/-- The inline percentage-change formula of `calculateComparison`:
`(current - previous) / previous * 100`, in JS arithmetic. -/
def pctFormula (current previous : ℚ) : JsNum :=
  JsNum.div (fin (current - previous)) (fin previous) * fin 100

/-- Clear the env-derived fields of a breakdown (`crypto.randomUUID()`
id and `created_at`). -/
def scrubBreakdown (b : CostBreakdown) : CostBreakdown :=
  { b with id := "", created_at := 0 }

/-- Clear the env-derived field of a forecast entry (its current-time
date stamp). -/
def scrubForecast (f : CostForecast) : CostForecast :=
  { f with date := 0 }

/-- Clear the env-derived field of a saving opportunity (its
`crypto.randomUUID()` id). -/
def scrubOpportunity (o : CostSavingOpportunity) : CostSavingOpportunity :=
  { o with id := "" }

/-- Everything in a cost report except the `crypto.randomUUID()` ids and
the current-time date stamps. -/
def reportCore (r : CostAnalysisReport) : CostAnalysisReport :=
  { r with
      breakdown := scrubBreakdown r.breakdown
      forecast := r.forecast.map scrubForecast
      savingOpportunities := r.savingOpportunities.map scrubOpportunity }

end CostAnalyzer

namespace SustainabilityAnalyzer

/-- Clear the env-derived fields of a carbon footprint: the forecast
entries' current-time stamps and `Math.random()`-perturbed predictions
(their deterministic confidences are kept). -/
def scrubCarbon (c : CarbonFootprint) : CarbonFootprint :=
  { c with forecast := c.forecast.map (fun f => { f with timestamp := 0, predictedEmissions := 0 }) }

/-- Clear the env-derived fields of the efficiency metrics: the
current-time `nextService` stamps. -/
def scrubEfficiency (e : EfficiencyMetrics) : EfficiencyMetrics :=
  { e with equipmentScores := e.equipmentScores.map (fun s =>
      { s with maintenance := { s.maintenance with nextService := 0 } }) }

/-- Clear the env-derived fields of the sustainability score: the
recommendation ids, and the `Math.random()`-perturbed and current-time
parts of the historical progress and forecast. -/
def scrubScore (s : SustainabilityScore) : SustainabilityScore :=
  { s with
      recommendations := s.recommendations.map (fun r => { r with id := "" })
      historicalProgress := s.historicalProgress.map (fun h =>
        { h with timestamp := 0, score := fin 0 })
      forecast := s.forecast.map (fun f =>
        { f with timestamp := 0, predictedScore := fin 0 }) }

/-- Clear the env-derived fields of the ML insights: the
`Math.random()`-perturbed daily efficiencies. -/
def scrubMLInsights (m : MLSustainabilityInsights) : MLSustainabilityInsights :=
  { m with daily := m.daily.map (fun d => { d with efficiency := 0 }) }

/-- Everything in a sustainability report except the randomised ids,
current-time stamps and `Math.random()`-perturbed values. -/
def sustainabilityCore (m : SustainabilityMetrics) : SustainabilityMetrics :=
  { m with
      carbonFootprint := scrubCarbon m.carbonFootprint
      efficiency := scrubEfficiency m.efficiency
      sustainabilityScore := scrubScore m.sustainabilityScore
      mlInsights := scrubMLInsights m.mlInsights }

end SustainabilityAnalyzer

namespace DemandAnalyzer

/-- Ascending-by-timestamp ordering on readings. -/
def tsLE (a b : EnergyData) : Prop := a.timestamp ≤ b.timestamp

theorem mem_insertByTs {y r : EnergyData} {l : List EnergyData} :
    y ∈ insertByTs r l → y = r ∨ y ∈ l := by
  induction l with
  | nil => simp [insertByTs]
  | cons x xs ih =>
      simp only [insertByTs]
      split
      · intro h
        simpa using h
      · intro h
        rcases List.mem_cons.mp h with h | h
        · exact Or.inr (by simp [h])
        · rcases ih h with h | h
          · exact Or.inl h
          · exact Or.inr (List.mem_cons_of_mem _ h)

theorem sorted_insertByTs {r : EnergyData} {l : List EnergyData}
    (hl : l.Sorted tsLE) : (insertByTs r l).Sorted tsLE := by
  induction l with
  | nil => simp [insertByTs, List.sorted_singleton]
  | cons x xs ih =>
      rw [List.sorted_cons] at hl
      simp only [insertByTs]
      split
      · rename_i hle
        rw [List.sorted_cons]
        refine ⟨?_, List.sorted_cons.mpr hl⟩
        intro b hb
        rcases List.mem_cons.mp hb with h | h
        · exact h ▸ hle
        · exact le_trans hle (hl.1 b h)
      · rename_i hgt
        rw [List.sorted_cons]
        refine ⟨?_, ih hl.2⟩
        intro b hb
        rcases mem_insertByTs hb with h | h
        · exact h ▸ le_of_not_le hgt
        · exact hl.1 b h

theorem sorted_sortByTs (l : List EnergyData) : (sortByTs l).Sorted tsLE := by
  induction l with
  | nil => simp [sortByTs]
  | cons x xs ih => exact sorted_insertByTs ih

theorem sorted_updateHistoricalData (hist batch : List EnergyData) (now : ℤ) :
    (updateHistoricalData hist batch now).Sorted tsLE :=
  (sorted_sortByTs (hist ++ batch)).filter _

theorem cutoff_updateHistoricalData {r : EnergyData} (hist batch : List EnergyData) (now : ℤ)
    (hr : r ∈ updateHistoricalData hist batch now) :
    now - THIRTY_DAYS_MS ≤ r.timestamp := by
  have := (List.mem_filter.mp hr).2
  exact of_decide_eq_true this

end DemandAnalyzer

/-! Concrete fixtures used by the concrete theorems below. -/

/-- A fixed environment (current time 2024-03-01T11:26:40Z, constant
uuid and random streams). -/
def env0 : Env := { now := 1709290000000, uuid := fun n => toString n, rand := fun _ => 1/2 }

/-- An environment whose `crypto.randomUUID()` stream returns "a". -/
def envA : Env := { now := 1709290000000, uuid := fun _ => "a", rand := fun _ => 1/2 }

/-- An environment whose `crypto.randomUUID()` stream returns "b", as a
second call observing different uuid draws would. -/
def envB : Env := { now := 1709290000000, uuid := fun _ => "b", rand := fun _ => 1/2 }

/-- A fixed stand-in for `Math.sqrt`. -/
def sqrt0 : JsNum → JsNum := fun _ => fin 1

/-- A reading of 100 kWh at 10:00 (peak hour) on Fri 2024-03-01. -/
def r10 : EnergyData := { timestamp := 1709287200000, hour := 10, weekday := 5, month := 2, value := 100 }

/-- A reading of 25 kWh at 20:00 (off-peak hour) on Fri 2024-03-01. -/
def r20 : EnergyData := { timestamp := 1709323200000, hour := 20, weekday := 5, month := 2, value := 25 }

/-- A reading with value 0 (a non-empty reading set with zero total
usage). -/
def rz : EnergyData := { timestamp := 0, hour := 0, weekday := 0, month := 0, value := 0 }

/-- A reading of 5 kWh at an off-peak hour. -/
def r5 : EnergyData := { timestamp := 0, hour := 3, weekday := 2, month := 1, value := 5 }

/-- A reading of 10 kWh at an off-peak hour. -/
def rOff : EnergyData := { timestamp := 0, hour := 6, weekday := 2, month := 1, value := 10 }

/-- A reading of value 0 at an off-peak hour (gives a previous period
with zero total cost). -/
def rZeroOff : EnergyData := { timestamp := 0, hour := 6, weekday := 2, month := 1, value := 0 }

open CostAnalyzer DemandAnalyzer SustainabilityAnalyzer
open JsNum (add_def sub_def mul_def div_def neg_def div_fin_fin)

/-- C1: the claim says every one of the four `CostMetrics` ratios is
guarded to yield 0 on a zero denominator, in particular on the empty
reading set.  The source (`calculateMetrics`) has no guard at all: on
the empty reading set (totalKwh = peakKwh = 0) all four ratios are the
JS value 0/0 = NaN, contradicting both the claim and the repository's
own test, which expects `analysis.metrics.averageCostPerKwh` to be 0 for
`analyzeCosts([])`.  This theorem evaluates the code at that failing
input. -/
theorem C1_calculateMetrics_unguarded :
    (analyzeCosts sqrt0 [] [] env0).metrics =
      { averageCostPerKwh := .nan, peakCostPerKwh := .nan,
        offPeakCostPerKwh := .nan, demandCostPerKw := .nan } ∧
    (JsNum.nan ≠ fin 0) := by
  constructor
  · norm_num [analyzeCosts, calculateMetrics, calculateBreakdown, totalValue, JsNum.div, PEAK_RATE]
  · simp

/-- C2: the claim says the forecast entry for hour h is the mean cost of
exactly the readings falling in hour h, and 0 when no reading falls in
hour h.  The source initialises its hourly table with
`new Array(24).fill(sharedObject)`, so all 24 slots alias one
accumulator and every hour receives the overall mean cost instead.
At the failing input (one 100 kWh reading at hour 10, cost 15, and one
25 kWh reading at hour 20, cost 2) every one of the 24 entries predicts
the overall mean 17/2 = 8.5: in particular hour 0, with no readings,
predicts 8.5 rather than the claimed 0, and hour 10 predicts 8.5 rather
than 15. -/
theorem C2_generateForecast_shared_accumulator :
    ((generateForecast [r10, r20] env0).map (fun f => f.predictedCost)) =
      List.replicate 24 (17/2 : ℚ) ∧
    ((17 : ℚ)/2 ≠ 0) := by
  constructor
  · norm_num [generateForecast, r10, r20, rateFor, isPeakHour, PEAK_RATE, OFF_PEAK_RATE]
    simp [Function.comp_def, List.map_const']
  · norm_num

/-- C3 counterexample: the claim says every monetary field of the
breakdown of the empty reading set is 0, but `fixed_charges` is the
constant 50 (and `taxes` is 8% of it, 4). -/
theorem C3_counterexample :
    (calculateBreakdown [] env0).fixed_charges ≠ 0 ∧
    (calculateBreakdown [] env0).fixed_charges = 50 ∧
    (calculateBreakdown [] env0).taxes = 4 := by
  norm_num [calculateBreakdown, FIXED_CHARGE, TAX_RATE]

/-- C3 (amended): for the empty reading array, `calculateBreakdown`
returns `peak_cost`, `off_peak_cost`, `demand_charges` and
`other_charges` all 0, while `fixed_charges` is the constant 50 and
`taxes` is 8% of the fixed charge, 4. -/
theorem C3_empty_breakdown (env : Env) :
    (calculateBreakdown [] env).peak_cost = 0 ∧
    (calculateBreakdown [] env).off_peak_cost = 0 ∧
    (calculateBreakdown [] env).demand_charges = 0 ∧
    (calculateBreakdown [] env).other_charges = 0 ∧
    (calculateBreakdown [] env).fixed_charges = 50 ∧
    (calculateBreakdown [] env).taxes = 4 := by
  norm_num [calculateBreakdown, FIXED_CHARGE, TAX_RATE]

/-- C4 counterexample: the claim says `analyzeCosts` and
`analyzeSustainability` yield identical output in every field when
called twice on the same readings.  The impure primitives are explicit
here, and two successive calls observe different `crypto.randomUUID()`
draws (`envA` versus `envB`): the reports differ, in the breakdown id
and the recommendation ids. -/
theorem C4_counterexample :
    analyzeCosts sqrt0 [] [] envA ≠ analyzeCosts sqrt0 [] [] envB ∧
    analyzeSustainability [r5] envA ≠ analyzeSustainability [r5] envB := by
  constructor
  · intro h
    have hid := congrArg (fun r => r.breakdown.id) h
    simp [analyzeCosts, calculateBreakdown, envA, envB] at hid
  · intro h
    have hid := congrArg
      (fun m => m.sustainabilityScore.recommendations.map (fun r => r.id)) h
    norm_num [analyzeSustainability, calculateSustainabilityScore, generateRecommendations,
      calculateCarbonFootprint, calculateRenewableMetrics, calculateEfficiencyMetrics,
      totalValue, r5, envA, envB, BASELINE_EMISSIONS,
      add_def, sub_def, mul_def, div_def, neg_def, JsNum.add, JsNum.sub, JsNum.neg,
      JsNum.mul, JsNum.div, JsNum.lt, JsNum.min2, JsNum.max2] at hid
    exact absurd hid (by decide)

/-- C4 (amended): with the impure primitives made explicit, both
analyzers are deterministic in every field except the
`crypto.randomUUID()` ids, the current-time-derived date stamps, and the
`Math.random()`-perturbed illustrative values (forecast predictions,
historical-progress scores, daily-pattern efficiencies): the reports
projected onto the remaining fields depend on the readings alone. -/
theorem C4_deterministic_core (sqrt : JsNum → JsNum)
    (currentData previousData data : List EnergyData) (env1 env2 : Env) :
    reportCore (analyzeCosts sqrt currentData previousData env1) =
      reportCore (analyzeCosts sqrt currentData previousData env2) ∧
    sustainabilityCore (analyzeSustainability data env1) =
      sustainabilityCore (analyzeSustainability data env2) := by
  constructor
  · simp only [reportCore, analyzeCosts, scrubBreakdown, calculateBreakdown, calculateMetrics,
      generateForecast, scrubForecast, List.map_map, Function.comp_def,
      generateSavingOpportunities, calculateComparison,
      List.map_append, apply_ite (List.map scrubOpportunity),
      List.map_cons, List.map_nil, scrubOpportunity]
  · simp only [sustainabilityCore, analyzeSustainability,
      scrubCarbon, calculateCarbonFootprint,
      scrubEfficiency, calculateEfficiencyMetrics,
      scrubScore, calculateSustainabilityScore, generateRecommendations,
      scrubMLInsights, calculateMLInsights,
      calculateRenewableMetrics,
      List.map_map, Function.comp_def, List.map_append,
      apply_ite (List.map (fun (r : SustainabilityRecommendation) => { r with id := "" })),
      List.map_cons, List.map_nil]

/-- C5: after any sequence of `updateHistoricalData` calls (an arbitrary
prior buffer state, an arbitrary list of earlier calls, and a last call
at time `lastNow`), the retained buffer is sorted ascending by timestamp
and every retained reading is at or after `lastNow` minus 30 days. -/
theorem C5_demand_buffer_invariant (init : List EnergyData)
    (front : List (List EnergyData × ℤ)) (lastBatch : List EnergyData) (lastNow : ℤ) :
    (runUpdates init (front ++ [(lastBatch, lastNow)])).Sorted tsLE ∧
    ∀ r ∈ runUpdates init (front ++ [(lastBatch, lastNow)]),
      lastNow - THIRTY_DAYS_MS ≤ r.timestamp := by
  have hrun : runUpdates init (front ++ [(lastBatch, lastNow)]) =
      updateHistoricalData (runUpdates init front) lastBatch lastNow := by
    simp [runUpdates, List.foldl_append]
  rw [hrun]
  exact ⟨sorted_updateHistoricalData _ _ _, fun r hr => cutoff_updateHistoricalData _ _ _ hr⟩

/-- C5 witness: the invariant at a concrete single-call sequence. -/
theorem C5_witness :
    (runUpdates [] [([r10, r5], 1709290000000)]).Sorted tsLE ∧
    ∀ r ∈ runUpdates [] [([r10, r5], 1709290000000)],
      1709290000000 - THIRTY_DAYS_MS ≤ r.timestamp :=
  C5_demand_buffer_invariant [] [] [r10, r5] 1709290000000

/-- C6 counterexample: the claim says each percentage-change field
yields 0 whenever the previous value is 0; with a previous period of
zero total cost and a current period of positive total cost the
unguarded formula gives +Infinity instead. -/
theorem C6_counterexample :
    (calculateComparison [rOff] [rZeroOff] env0).percentageChange.totalCost = .inf ∧
    (calculateComparison [rOff] [rZeroOff] env0).percentageChange.totalCost ≠ fin 0 := by
  have h1 : (calculateComparison [rOff] [rZeroOff] env0).percentageChange.totalCost = .inf := by
    norm_num [calculateComparison, calculateBreakdown, rOff, rZeroOff, isPeakHour,
      OFF_PEAK_RATE, PEAK_RATE, JsNum.div, mul_def, JsNum.mul]
  exact ⟨h1, by rw [h1]; simp⟩

/-- C6 (amended): each percentage-change field is the unguarded JS
formula `(current - previous) / previous * 100`, which yields +Infinity
(or -Infinity) rather than 0 when the previous value is 0 and the
current one is nonzero, and NaN when both are 0; when `analyzeCosts` is
called with an empty previous set it compares the current set against
itself without error, yielding 0% change in each field whose value is
nonzero and NaN in fields whose value is 0. -/
theorem C6_percentage_change_behavior :
    (∀ (currentData previousData : List EnergyData) (env : Env),
      (calculateComparison currentData previousData env).percentageChange.totalCost =
        pctFormula
          ((calculateBreakdown currentData env).peak_cost + (calculateBreakdown currentData env).off_peak_cost)
          ((calculateBreakdown previousData env).peak_cost + (calculateBreakdown previousData env).off_peak_cost) ∧
      (calculateComparison currentData previousData env).percentageChange.peakCosts =
        pctFormula (calculateBreakdown currentData env).peak_cost (calculateBreakdown previousData env).peak_cost ∧
      (calculateComparison currentData previousData env).percentageChange.offPeakCosts =
        pctFormula (calculateBreakdown currentData env).off_peak_cost (calculateBreakdown previousData env).off_peak_cost) ∧
    (∀ c : ℚ, 0 < c → pctFormula c 0 = .inf) ∧
    (∀ c : ℚ, c < 0 → pctFormula c 0 = .ninf) ∧
    pctFormula 0 0 = .nan ∧
    (∀ x : ℚ, x ≠ 0 → pctFormula x x = fin 0) ∧
    (∀ (sqrt : JsNum → JsNum) (data : List EnergyData) (env : Env),
      (analyzeCosts sqrt data [] env).comparison = calculateComparison data data env ∧
      ((calculateBreakdown data env).peak_cost + (calculateBreakdown data env).off_peak_cost ≠ 0 →
        (analyzeCosts sqrt data [] env).comparison.percentageChange.totalCost = fin 0 ∧
        (analyzeCosts sqrt data [] env).comparison.percentageChange.averageCost = fin 0) ∧
      ((calculateBreakdown data env).peak_cost + (calculateBreakdown data env).off_peak_cost = 0 →
        (analyzeCosts sqrt data [] env).comparison.percentageChange.totalCost = .nan)) := by
  have hself : ∀ (sqrt : JsNum → JsNum) (data : List EnergyData) (env : Env),
      (analyzeCosts sqrt data [] env).comparison = calculateComparison data data env := by
    intro sqrt data env
    simp [analyzeCosts]
  refine ⟨?_, ?_, ?_, ?_, ?_, ?_⟩
  · intro currentData previousData env
    exact ⟨rfl, rfl, rfl⟩
  · intro c hc
    norm_num [pctFormula, JsNum.div, mul_def, JsNum.mul, ne_of_gt hc, hc]
  · intro c hc
    norm_num [pctFormula, JsNum.div, mul_def, JsNum.mul, ne_of_lt hc, not_lt.mpr (le_of_lt hc), hc]
  · norm_num [pctFormula, JsNum.div, mul_def, JsNum.mul]
  · intro x hx
    norm_num [pctFormula, JsNum.div, hx, mul_def, JsNum.mul]
  · intro sqrt data env
    refine ⟨hself sqrt data env, ?_, ?_⟩
    · intro hT
      have hdata : data ≠ [] := by
        intro hnil
        apply hT
        simp [hnil, calculateBreakdown]
      have hlen : (data.length : ℚ) ≠ 0 := by
        simpa using fun hc => hdata (List.length_eq_zero.mp hc)
      constructor
      · rw [hself]
        show (calculateComparison data data env).percentageChange.totalCost = fin 0
        norm_num [calculateComparison, pctFormula, JsNum.div, hT, mul_def, JsNum.mul]
      · rw [hself]
        show (calculateComparison data data env).percentageChange.averageCost = fin 0
        have havg : JsNum.div (fin ((calculateBreakdown data env).peak_cost + (calculateBreakdown data env).off_peak_cost)) (fin (data.length : ℚ)) =
            fin (((calculateBreakdown data env).peak_cost + (calculateBreakdown data env).off_peak_cost) / (data.length : ℚ)) :=
          div_fin_fin _ hlen
        have hq : ((calculateBreakdown data env).peak_cost + (calculateBreakdown data env).off_peak_cost) / (data.length : ℚ) ≠ 0 :=
          div_ne_zero hT hlen
        simp only [calculateComparison, havg]
        norm_num [sub_def, JsNum.sub, JsNum.add, JsNum.neg, add_def, div_def, JsNum.div, hq,
          mul_def, JsNum.mul]
    · intro hT
      rw [hself]
      show (calculateComparison data data env).percentageChange.totalCost = .nan
      norm_num [calculateComparison, pctFormula, JsNum.div, hT, mul_def, JsNum.mul]

/-- C6 witness: the behaviors at concrete inputs. -/
theorem C6_witness :
    pctFormula 5 0 = .inf ∧
    pctFormula (-3) 0 = .ninf ∧
    pctFormula 7 7 = fin 0 ∧
    (analyzeCosts sqrt0 [rOff] [] env0).comparison.percentageChange.totalCost = fin 0 :=
  ⟨C6_percentage_change_behavior.2.1 5 (by norm_num),
   C6_percentage_change_behavior.2.2.1 (-3) (by norm_num),
   C6_percentage_change_behavior.2.2.2.2.1 7 (by norm_num),
   ((C6_percentage_change_behavior.2.2.2.2.2 sqrt0 [rOff] env0).2.1
     (by norm_num [calculateBreakdown, rOff, isPeakHour, OFF_PEAK_RATE, PEAK_RATE])).1⟩

/-- C7: the claim (and the repository's own test) says the empty
reading set yields all-zero sustainability metrics, in particular
`renewableEnergy.percentage` equal to 0 and not NaN.  The code computes
`((0 + 0) / 0) * 100`, which is NaN in JS; `totalEmissions` and the
empty recommendation list do match the claim.  This theorem evaluates
the code at the failing input. -/
theorem C7_empty_sustainability :
    (analyzeSustainability [] env0).carbonFootprint.totalEmissions = 0 ∧
    (analyzeSustainability [] env0).renewableEnergy.percentage = .nan ∧
    (analyzeSustainability [] env0).renewableEnergy.percentage ≠ fin 0 ∧
    (analyzeSustainability [] env0).sustainabilityScore.recommendations = [] := by
  norm_num [analyzeSustainability, calculateSustainabilityScore, generateRecommendations,
    calculateCarbonFootprint, calculateRenewableMetrics, calculateEfficiencyMetrics,
    totalValue, BASELINE_EMISSIONS,
    add_def, sub_def, mul_def, div_def, neg_def,
    JsNum.add, JsNum.sub, JsNum.neg, JsNum.mul, JsNum.div, JsNum.lt, JsNum.min2, JsNum.max2]
  simp

/-- C8: for every reading set, `generateTimeOfUseCosts` returns exactly
168 entries, enumerating every (weekday 0-6, hour 0-23) pair in order,
and each entry's cost is the average value of the readings falling on
that weekday and hour times the applicable rate (peak rate for hours
9-17 inclusive), and 0 when no reading matches. -/
theorem C8_timeOfUse_matrix (data : List EnergyData) :
    (generateTimeOfUseCosts data).length = 168 ∧
    generateTimeOfUseCosts data =
      (List.range 7).flatMap (fun weekday => (List.range 24).map (fun hour =>
        { hour := hour, weekday := weekday, cost := timeOfUseCellSpec data weekday hour })) := by
  have hmain : generateTimeOfUseCosts data =
      (List.range 7).flatMap (fun weekday => (List.range 24).map (fun hour =>
        { hour := hour, weekday := weekday, cost := timeOfUseCellSpec data weekday hour })) := by
    simp only [generateTimeOfUseCosts]
    refine congrArg (fun f => (List.range 7).flatMap f) (funext fun weekday => ?_)
    refine congrArg (fun f => (List.range 24).map f) (funext fun hour => ?_)
    by_cases hrel : data.filter (fun r => r.weekday == weekday && r.hour == hour) = []
    · simp [hrel, timeOfUseCellSpec, totalValue]
    · have hlen : (data.filter (fun r => r.weekday == weekday && r.hour == hour)).length ≠ 0 :=
        fun hc => hrel (List.length_eq_zero.mp hc)
      simp [hrel, hlen, timeOfUseCellSpec]
  refine ⟨?_, hmain⟩
  rw [hmain]
  simp [Function.comp_def, List.map_const', List.sum_replicate]

/-- C9: `detectAnomalies` returns exactly one anomaly per input reading,
in order (the dates are the readings' timestamps), with no filtering,
and each anomaly's severity is one of low, medium, high; in particular
the empty input yields the empty list. -/
theorem C9_one_anomaly_per_reading (sqrt : JsNum → JsNum) (data : List EnergyData) :
    (detectAnomalies sqrt data).length = data.length ∧
    (detectAnomalies sqrt data).map (fun a => a.date) = data.map (fun r => r.timestamp) ∧
    ∀ a ∈ detectAnomalies sqrt data,
      a.severity = .low ∨ a.severity = .medium ∨ a.severity = .high := by
  refine ⟨by simp [detectAnomalies], by simp [detectAnomalies, List.map_map, Function.comp_def], ?_⟩
  intro a ha
  simp only [detectAnomalies, List.mem_map] at ha
  obtain ⟨c, hc, rfl⟩ := ha
  dsimp only
  split
  · simp
  · split <;> simp

/-- C9 witness: the properties at a concrete input. -/
theorem C9_witness :
    (detectAnomalies sqrt0 [r10, r20]).length = [r10, r20].length ∧
    (detectAnomalies sqrt0 [r10, r20]).map (fun a => a.date) = [r10, r20].map (fun r => r.timestamp) ∧
    ∀ a ∈ detectAnomalies sqrt0 [r10, r20],
      a.severity = .low ∨ a.severity = .medium ∨ a.severity = .high :=
  C9_one_anomaly_per_reading sqrt0 [r10, r20]

/-- C10 counterexample: the claim says every non-empty reading set
yields exactly two recommendations; a non-empty set of all-zero
readings has zero total usage, every score is NaN, both JS `<` guards
are false, and no recommendation is emitted. -/
theorem C10_counterexample :
    (analyzeSustainability [rz] env0).sustainabilityScore.recommendations = [] ∧
    ([] : List SustainabilityRecommendation).length ≠ 2 := by
  constructor
  · norm_num [analyzeSustainability, calculateSustainabilityScore, generateRecommendations,
      calculateCarbonFootprint, calculateRenewableMetrics, calculateEfficiencyMetrics,
      totalValue, rz, BASELINE_EMISSIONS,
      add_def, sub_def, mul_def, div_def, neg_def,
      JsNum.add, JsNum.sub, JsNum.neg, JsNum.mul, JsNum.div, JsNum.lt, JsNum.min2, JsNum.max2]
  · simp

/-- C10 (amended): for every reading set with NONZERO total usage,
`analyzeSustainability` emits exactly two recommendations, one carbon
category with high priority and one renewable category with medium
priority, because `emissionsPerKwh` is then exactly 0.4 (making the
carbon score 20, below 70) and the renewable percentage exactly 40
(below 50); with zero total usage (including non-empty all-zero sets)
the scores are NaN and no recommendation is emitted. -/
theorem C10_two_recommendations (data : List EnergyData) (env : Env)
    (h : totalValue data ≠ 0) :
    (analyzeSustainability data env).sustainabilityScore.recommendations.map
      (fun r => (r.category, r.priority)) =
    [(RecommendationCategory.carbon, CostAnalyzer.Priority.high),
     (RecommendationCategory.renewable, CostAnalyzer.Priority.medium)] ∧
    (analyzeSustainability data env).carbonFootprint.emissionsPerKwh = fin 0.4 ∧
    (analyzeSustainability data env).renewableEnergy.percentage = fin 40 := by
  have e1 : JsNum.div (fin (totalValue data * 0.4)) (fin (totalValue data)) = fin 0.4 := by
    rw [div_fin_fin _ h, mul_comm, mul_div_assoc, div_self h, mul_one]
  have e2 : JsNum.div (fin (totalValue data * 0.15 + totalValue data * 0.25))
      (fin (totalValue data)) = fin 0.4 := by
    have h40 : totalValue data * 0.15 + totalValue data * 0.25 = totalValue data * 0.4 := by ring
    rw [h40, div_fin_fin _ h, mul_comm, mul_div_assoc, div_self h, mul_one]
  refine ⟨?_, ?_, ?_⟩
  · simp only [analyzeSustainability, calculateSustainabilityScore, generateRecommendations,
      calculateCarbonFootprint, calculateRenewableMetrics, calculateEfficiencyMetrics,
      BASELINE_EMISSIONS, e1, e2]
    norm_num [add_def, sub_def, mul_def, div_def, neg_def,
      JsNum.add, JsNum.sub, JsNum.neg, JsNum.mul, JsNum.div, JsNum.lt, JsNum.min2, JsNum.max2]
  · simp only [analyzeSustainability, calculateCarbonFootprint, e1]
  · simp only [analyzeSustainability, calculateRenewableMetrics, e2, mul_def, JsNum.mul]
    norm_num [JsNum.mul, mul_def]

/-- C10 witness: the two recommendations at a concrete one-reading set
of 5 kWh. -/
theorem C10_witness :
    totalValue [r5] ≠ 0 ∧
    (analyzeSustainability [r5] env0).sustainabilityScore.recommendations.map
      (fun r => (r.category, r.priority)) =
    [(RecommendationCategory.carbon, CostAnalyzer.Priority.high),
     (RecommendationCategory.renewable, CostAnalyzer.Priority.medium)] :=
  ⟨by norm_num [totalValue, r5],
   (C10_two_recommendations [r5] env0 (by norm_num [totalValue, r5])).1⟩

end NEMS
